import Mathlib

/-!
Verification of the two-player arithmetic game (Zetamac Race).

Shallow embedding of the core logic of the repository:
* `src/App.jsx` — game session state machine (`createGame`, `joinGame`,
  `startGame`, `handleInputChange`, `endGame`, bot interval) and the
  problem generator (`generateProblem`).
* `functions/index.js` — the Elo cloud function (`getExpectedScore`,
  `calculateNewElo`, `calculateEloOnGameEnd`).

Randomness (`Math.random` draws) is passed in as explicit parameters with
the ranges the source produces (`Math.floor(Math.random()*11)+2` becomes a
`Fin 11` draw plus 2, and so on).  Firestore documents become plain
structures; an `updateDoc` call becomes a function from the current record
to the new record, writing exactly the fields the source writes, with the
written values computed the way the source computes them (in particular,
score writes are absolute values derived from the snapshot the caller
read, mirroring the JavaScript).  JavaScript numbers used by the Elo
formula are modelled as real numbers; `Math.round` is the `round`
function, since both are floor of x + 1/2.
-/

/-- Game lifecycle states of the GameRecord `status` field. -/
inductive Status where
  | waiting
  | ready
  | playing
  | finished
deriving DecidableEq, Repr

/-- The shared game document, after the fields written by `createGame` in
`src/App.jsx`.  Timestamps are integers (milliseconds), Elo ratings are
integers, and nullable fields are `Option`. -/
structure GameRecord where
  player1Id : String
  player2Id : Option String
  player1Score : Nat
  player2Score : Nat
  player1EloAtStart : Int
  player2EloAtStart : Int
  player1NewElo : Option Int
  player2NewElo : Option Int
  status : Status
  opponentType : String
  currentProblem : Option String
  currentAnswer : Option Nat
  startTime : Option Int
  winnerId : Option String
  eloCalculated : Bool
  createdAt : Int
deriving DecidableEq, Repr

/-- Output of `generateProblem`: the displayed text and the numeric answer. -/
structure Problem where
  problem : String
  answer : Nat
deriving DecidableEq, Repr

/-- Embedding of `generateProblem` from `src/App.jsx`.  The random draws are
explicit arguments: `op` is the index into the operations array
`[+, -, *, /]`; `d11` is a draw `Math.floor(Math.random()*11)` used for the
small factor and the divisor; `d99a` and `d99b` are draws
`Math.floor(Math.random()*99)`; `coin` is the `Math.random() < 0.5` flip
that randomizes factor order for multiplication. -/
def generateProblem (op : Fin 4) (d11 : Fin 11) (d99a d99b : Fin 99) (coin : Bool) : Problem :=
  if op.val = 0 ∨ op.val = 1 then
    let n1 := d99a.val + 2
    let n2 := d99b.val + 2
    let num1 := max n1 n2
    let num2 := min n1 n2
    if op.val = 0 then
      { problem := toString num1 ++ " + " ++ toString num2, answer := num1 + num2 }
    else
      { problem := toString num1 ++ " - " ++ toString num2, answer := num1 - num2 }
  else if op.val = 2 then
    let factor1 := d11.val + 2
    let factor2 := d99a.val + 2
    let num1 := if coin then factor1 else factor2
    let num2 := if coin then factor2 else factor1
    { problem := toString num1 ++ " * " ++ toString num2, answer := num1 * num2 }
  else
    let divisor := d11.val + 2
    let quotient := d99b.val + 2
    let num1 := divisor * quotient
    let num2 := divisor
    { problem := toString num1 ++ " / " ++ toString num2, answer := quotient }

/-- JavaScript `String(x)` for the `currentAnswer` field: decimal string of
the number, or the text null when the field is null. -/
def answerString : Option Nat → String
  | none => "null"
  | some n => toString n

/-- The fields written by the `updateDoc` call inside `handleInputChange`
on a correct answer: the replacement problem and answer pair, which score
field is targeted, and the absolute value written to it. -/
structure ScoreUpdate where
  currentProblem : String
  currentAnswer : Nat
  isP1 : Bool
  newScore : Nat
deriving DecidableEq, Repr

/-- Embedding of `handleInputChange` from `src/App.jsx`, restricted to its
effect on the shared game record (local feedback state is UI only).  The
`game` argument is the local snapshot the React component holds; the next
problem pair (the `generateProblem` call) is passed in.  Returns the fields
written, or `none` when the input causes no write. -/
def handleInputChange (value userId : String) (game : GameRecord)
    (nextProblem : String) (nextAnswer : Nat) : Option ScoreUpdate :=
  if game.status ≠ Status.playing then none
  else if value.length = (answerString game.currentAnswer).length then
    if value = answerString game.currentAnswer then
      some { currentProblem := nextProblem
             currentAnswer := nextAnswer
             isP1 := userId == game.player1Id
             newScore := (if userId == game.player1Id then game.player1Score
                          else game.player2Score) + 1 }
    else none
  else none

/-- Application of a `ScoreUpdate` to the current stored record: a Firestore
`updateDoc` merge that sets exactly the named fields to the given values. -/
def applyScoreUpdate (g : GameRecord) (u : ScoreUpdate) : GameRecord :=
  if u.isP1 then
    { g with currentProblem := some u.currentProblem
             currentAnswer := some u.currentAnswer
             player1Score := u.newScore }
  else
    { g with currentProblem := some u.currentProblem
             currentAnswer := some u.currentAnswer
             player2Score := u.newScore }

/-- One tick of the bot interval in `GameRoom`: it re-reads the current
record (`getDoc`) and, if still playing, writes
`player2Score := read value + 1` as an absolute value.  Returns the value
written to `player2Score`, or `none` when the tick does not write. -/
def botTickWrite (snapshot : GameRecord) : Option Nat :=
  if snapshot.status = Status.playing then some (snapshot.player2Score + 1) else none

/-- Modelled from the spec: the specification demands that score bumps be
implemented as atomic deltas at the storage layer (a storage-side
increment of the stored value), not as a read-then-write of a snapshot.
No such increment primitive is used anywhere in `src/`; this definition
renders the specified semantics for comparison with the code. -/
def atomicIncrementP2 (g : GameRecord) : GameRecord :=
  { g with player2Score := g.player2Score + 1 }

/-- Embedding of `startGame` from `src/App.jsx`: guarded by the local
snapshot (`player1Id` must be the caller and `status` must be ready),
otherwise no write.  The generated first problem pair and the timestamp
are passed in. -/
def startGame (userId : String) (game : GameRecord) (now : Int)
    (prob : String) (ans : Nat) : GameRecord :=
  if game.player1Id ≠ userId ∨ game.status ≠ Status.ready then game
  else
    { game with status := Status.playing
                startTime := some now
                currentProblem := some prob
                currentAnswer := some ans }

/-- Embedding of `endGame` from `src/App.jsx`: re-reads the latest record
and mutates only when the status is still playing; the finalizing write
sets `status` and `winnerId` together in one `updateDoc`. -/
def endGame (current : GameRecord) : GameRecord :=
  if current.status = Status.playing then
    { current with
        status := Status.finished
        winnerId :=
          if current.player1Score > current.player2Score then some current.player1Id
          else if current.player2Score > current.player1Score then current.player2Id
          else none }
  else current

/-- Outcome of a `joinGame` call in `src/App.jsx`: entering the room as
player 1 without any write, one of the three rejections, or the write
binding player 2. -/
inductive JoinResult where
  | notFound
  | enterAsPlayer1
  | gameFull
  | notWaiting
  | joined (update : GameRecord)
deriving DecidableEq, Repr

/-- Tail of `joinGame` after the identity checks: reject unless the game is
still waiting, else bind player 2 (snapshotting the joiner rating, which
defaults to the starting Elo 200 when no profile exists) and move to ready. -/
def joinGameStatusCheck (u : String) (g : GameRecord) (profile : Option Int) : JoinResult :=
  if g.status ≠ Status.waiting then JoinResult.notWaiting
  else JoinResult.joined
    { g with player2Id := some u
             player2EloAtStart := profile.getD 200
             status := Status.ready }

/-- Embedding of `joinGame` from `src/App.jsx`, with its checks in source
order: missing document, caller already player 1, a different player 2
already bound, then the status guard. -/
def joinGame (u : String) (gameSnap : Option GameRecord) (profile : Option Int) : JoinResult :=
  match gameSnap with
  | none => JoinResult.notFound
  | some g =>
    if g.player1Id = u then JoinResult.enterAsPlayer1
    else
      match g.player2Id with
      | some v => if v ≠ u then JoinResult.gameFull else joinGameStatusCheck u g profile
      | none => joinGameStatusCheck u g profile

/-- Embedding of `getExpectedScore` from `functions/index.js`:
`1 / (1 + 10^((eloB - eloA) / 400))`, over the reals. -/
noncomputable def getExpectedScore (eloA eloB : ℝ) : ℝ :=
  1 / (1 + (10 : ℝ) ^ ((eloB - eloA) / 400))

/-- Embedding of `calculateNewElo` from `functions/index.js`, with the
intermediate constants of the source inlined:
`newEloA = eloA + k*(scoreA - expectedScoreA)`,
`newEloB = eloB + k*((1 - scoreA) - (1 - expectedScoreA))`,
both passed through `Math.round`. -/
noncomputable def calculateNewElo (eloA eloB scoreA kFactor : ℝ) : ℤ × ℤ :=
  (round (eloA + kFactor * (scoreA - getExpectedScore eloA eloB)),
   round (eloB + kFactor * ((1 - scoreA) - (1 - getExpectedScore eloA eloB))))

/-- State the cloud function touches: the two player profile documents
(rating records, `none` when absent) and the game record. -/
structure TriggerStore where
  p1Profile : Option Int
  p2Profile : Option Int
  game : GameRecord

/-- The early-exit guard of `calculateEloOnGameEnd` in `functions/index.js`,
negated: the handler proceeds exactly when the event payload has
`before.status` not finished, `after.status` finished, and
`after.eloCalculated` false. -/
def eloGuard (beforeData afterData : GameRecord) : Bool :=
  !(beforeData.status == Status.finished) &&
    (afterData.status == Status.finished) && !afterData.eloCalculated

/-- The single Firestore batch built and committed by
`calculateEloOnGameEnd` when the guard passes: resolve the current
ratings (player 1 from the profile, defaulting to the starting Elo 200;
bots by tier, a human opponent from the profile), compute `scoreA` from
the final scores, run the Elo formula with K = 32, then in one commit set
player 1 profile (and player 2 profile only for a human opponent) and the
`eloCalculated` / `player1NewElo` / `player2NewElo` fields of the game
record.  The batch is atomic at the storage layer, so it is modelled as a
single store transition. -/
noncomputable def eloBatch (afterData : GameRecord) (s : TriggerStore) : TriggerStore :=
  let player1CurrentElo : ℝ := ((s.p1Profile.getD 200 : ℤ) : ℝ)
  let player2CurrentElo : ℝ :=
    if afterData.opponentType.take 3 = "bot" then
      (if afterData.opponentType = "bot-1000" then 1000 else 2000)
    else if afterData.opponentType = "human" then ((s.p2Profile.getD 200 : ℤ) : ℝ)
    else 200
  let scoreA : ℝ :=
    if afterData.player1Score > afterData.player2Score then 1
    else if afterData.player2Score > afterData.player1Score then 0
    else 1 / 2
  let newEloA : ℤ := (calculateNewElo player1CurrentElo player2CurrentElo scoreA 32).1
  let newEloB : ℤ := (calculateNewElo player1CurrentElo player2CurrentElo scoreA 32).2
  { p1Profile := some newEloA
    p2Profile := if afterData.opponentType = "human" then some newEloB else s.p2Profile
    game := { s.game with
                eloCalculated := true
                player1NewElo := some newEloA
                player2NewElo := some newEloB } }

/-- Embedding of the `calculateEloOnGameEnd` handler: invoked with the
event payload (`beforeData`, `afterData`) over the current store state;
returns the committed store, or `none` when the guard makes it a no-op. -/
noncomputable def calculateEloOnGameEnd (beforeData afterData : GameRecord)
    (s : TriggerStore) : Option TriggerStore :=
  if eloGuard beforeData afterData then some (eloBatch afterData s) else none

/-- One delivery of an update event to the trigger: the store after the
handler ran (unchanged when the handler was a no-op). -/
noncomputable def deliver (beforeData afterData : GameRecord) (s : TriggerStore) : TriggerStore :=
  (calculateEloOnGameEnd beforeData afterData s).getD s

/-- A concrete human game in the ready state, as produced by `createGame`
followed by a `joinGame` of player B. -/
def sampleReadyGame : GameRecord where
  player1Id := "A"
  player2Id := some "B"
  player1Score := 0
  player2Score := 0
  player1EloAtStart := 200
  player2EloAtStart := 200
  player1NewElo := none
  player2NewElo := none
  status := Status.ready
  opponentType := "human"
  currentProblem := none
  currentAnswer := none
  startTime := none
  winnerId := none
  eloCalculated := false
  createdAt := 0

/-- The same game mid-play: scores 5 to 3, current answer 7. -/
def samplePlayingGame : GameRecord :=
  { sampleReadyGame with
      status := Status.playing
      startTime := some 1000
      currentProblem := some "3 + 4"
      currentAnswer := some 7
      player1Score := 5
      player2Score := 3 }

/-- C3: the ready-to-playing transition can be issued only by the identity
bound as `player1Id` on a record whose status is ready; any other attempt
is a no-op leaving every field unchanged; on success it sets `startTime`
and the first problem and answer pair. -/
theorem startGame_only_player1_when_ready (u : String) (g : GameRecord)
    (now : Int) (prob : String) (ans : Nat) :
    (¬(g.player1Id = u ∧ g.status = Status.ready) → startGame u g now prob ans = g) ∧
    (g.player1Id = u → g.status = Status.ready →
      startGame u g now prob ans =
        { g with status := Status.playing
                 startTime := some now
                 currentProblem := some prob
                 currentAnswer := some ans }) := by
  constructor
  · intro h
    unfold startGame
    rw [if_pos (by tauto)]
  · intro h1 h2
    unfold startGame
    rw [if_neg (by simp [h1, h2])]

/-- Witness for C3: player B attempting to start the ready game is a no-op. -/
theorem startGame_only_player1_when_ready_witness :
    ¬(sampleReadyGame.player1Id = "B" ∧ sampleReadyGame.status = Status.ready) ∧
    startGame "B" sampleReadyGame 5 "2 + 2" 4 = sampleReadyGame :=
  ⟨by decide,
   (startGame_only_player1_when_ready "B" sampleReadyGame 5 "2 + 2" 4).1 (by decide)⟩

/-- C4: `endGame` mutates the record only when the freshly read status is
still playing; when it finalizes, it writes `status` and `winnerId` in the
same update, with the winner decided by strict score comparison and a draw
yielding a null winner. -/
theorem endGame_finalize_guarded (c : GameRecord) :
    (c.status ≠ Status.playing → endGame c = c) ∧
    (c.status = Status.playing → endGame c =
      { c with status := Status.finished
               winnerId :=
                 if c.player1Score > c.player2Score then some c.player1Id
                 else if c.player2Score > c.player1Score then c.player2Id
                 else none }) := by
  constructor
  · intro h
    unfold endGame
    rw [if_neg h]
  · intro h
    unfold endGame
    rw [if_pos h]

/-- Witness for C4: finalizing the playing game with scores 5 to 3 crowns
player 1. -/
theorem endGame_finalize_guarded_witness :
    samplePlayingGame.status = Status.playing ∧
    endGame samplePlayingGame =
      { samplePlayingGame with
          status := Status.finished
          winnerId :=
            if samplePlayingGame.player1Score > samplePlayingGame.player2Score then
              some samplePlayingGame.player1Id
            else if samplePlayingGame.player2Score > samplePlayingGame.player1Score then
              samplePlayingGame.player2Id
            else none } :=
  ⟨rfl, (endGame_finalize_guarded samplePlayingGame).2 rfl⟩

/-- C7: every division problem is built inverse-first: divisor drawn from
2..12, quotient from 2..100, dividend is their product, the display is
dividend then divisor, the answer is the quotient, and the dividend is an
exact multiple of the divisor. -/
theorem generateProblem_division_inverse_first (op : Fin 4) (d11 : Fin 11)
    (d99a d99b : Fin 99) (coin : Bool) (hop : op.val = 3) :
    2 ≤ d11.val + 2 ∧ d11.val + 2 ≤ 12 ∧
    2 ≤ d99b.val + 2 ∧ d99b.val + 2 ≤ 100 ∧
    (generateProblem op d11 d99a d99b coin).problem =
      toString ((d11.val + 2) * (d99b.val + 2)) ++ " / " ++ toString (d11.val + 2) ∧
    (generateProblem op d11 d99a d99b coin).answer = d99b.val + 2 ∧
    ((d11.val + 2) * (d99b.val + 2)) % (d11.val + 2) = 0 := by
  have h11 := d11.isLt
  have h99 := d99b.isLt
  refine ⟨by omega, by omega, by omega, by omega, ?_, ?_, Nat.mul_mod_right _ _⟩
  · unfold generateProblem
    rw [if_neg (by omega), if_neg (by omega)]
  · unfold generateProblem
    rw [if_neg (by omega), if_neg (by omega)]

/-- Witness for C7 at the smallest draws: 4 / 2 with answer 2. -/
theorem generateProblem_division_inverse_first_witness :
    (3 : Fin 4).val = 3 ∧
    (2 ≤ (0 : Fin 11).val + 2 ∧ (0 : Fin 11).val + 2 ≤ 12 ∧
     2 ≤ (0 : Fin 99).val + 2 ∧ (0 : Fin 99).val + 2 ≤ 100 ∧
     (generateProblem 3 0 0 0 false).problem =
       toString (((0 : Fin 11).val + 2) * ((0 : Fin 99).val + 2)) ++ " / " ++
         toString ((0 : Fin 11).val + 2) ∧
     (generateProblem 3 0 0 0 false).answer = (0 : Fin 99).val + 2 ∧
     (((0 : Fin 11).val + 2) * ((0 : Fin 99).val + 2)) % ((0 : Fin 11).val + 2) = 0) :=
  ⟨rfl, generateProblem_division_inverse_first 3 0 0 0 false rfl⟩

/-- C9: during play, a submitted string is evaluated only at the full
length of the decimal answer string, counted correct exactly on
character-for-character equality (so an alternate representation such as
007 for 7 is rejected), and a rejected or shorter input writes nothing. -/
theorem handleInputChange_exact_equality (value u : String) (g : GameRecord)
    (np : String) (na : Nat) (hplay : g.status = Status.playing) :
    (value.length ≠ (answerString g.currentAnswer).length →
      handleInputChange value u g np na = none) ∧
    handleInputChange value u g np na =
      (if value = answerString g.currentAnswer then
        some { currentProblem := np
               currentAnswer := na
               isP1 := u == g.player1Id
               newScore := (if u == g.player1Id then g.player1Score
                            else g.player2Score) + 1 }
      else none) := by
  unfold handleInputChange
  rw [if_neg (by simp [hplay])]
  constructor
  · intro hlen
    rw [if_neg hlen]
  · by_cases hv : value = answerString g.currentAnswer
    · rw [if_pos (by rw [hv]), if_pos hv]
    · rw [if_neg hv]
      by_cases hlen : value.length = (answerString g.currentAnswer).length
      · rw [if_pos hlen]
      · rw [if_neg hlen]

/-- Witness for C9: with answer 7, the input 007 is rejected and writes
nothing, by the full instantiated property. -/
theorem handleInputChange_exact_equality_witness :
    samplePlayingGame.status = Status.playing ∧
    (("007".length ≠ (answerString samplePlayingGame.currentAnswer).length →
       handleInputChange "007" "B" samplePlayingGame "5 * 6" 30 = none) ∧
     handleInputChange "007" "B" samplePlayingGame "5 * 6" 30 =
       (if "007" = answerString samplePlayingGame.currentAnswer then
         some { currentProblem := "5 * 6"
                currentAnswer := 30
                isP1 := "B" == samplePlayingGame.player1Id
                newScore := (if "B" == samplePlayingGame.player1Id then
                               samplePlayingGame.player1Score
                             else samplePlayingGame.player2Score) + 1 }
       else none)) :=
  ⟨rfl, handleInputChange_exact_equality "007" "B" samplePlayingGame "5 * 6" 30 rfl⟩

/-- C10: once player 2 is bound and the game moved to ready, a repeated
`joinGame` by that same bound second participant passes the player-2
identity check but is rejected by the status-must-be-waiting guard; only
the identity bound as `player1Id` re-enters via `joinGame` at any status. -/
theorem joinGame_rejoin_rejected_after_ready (g : GameRecord) (u : String)
    (prof : Option Int) :
    (g.player2Id = some u → u ≠ g.player1Id → g.status = Status.ready →
      joinGame u (some g) prof = JoinResult.notWaiting) ∧
    joinGame g.player1Id (some g) prof = JoinResult.enterAsPlayer1 ∧
    (u ≠ g.player1Id → joinGame u (some g) prof ≠ JoinResult.enterAsPlayer1) := by
  refine ⟨?_, ?_, ?_⟩
  · intro h2 hne hst
    simp [joinGame, joinGameStatusCheck, h2, hst, Ne.symm hne]
  · simp [joinGame]
  · intro hne
    simp only [joinGame]
    rw [if_neg (Ne.symm hne)]
    have hsc : joinGameStatusCheck u g prof ≠ JoinResult.enterAsPlayer1 := by
      unfold joinGameStatusCheck
      split_ifs <;> simp
    cases hgp : g.player2Id with
    | none => exact hsc
    | some v =>
      show (if v ≠ u then JoinResult.gameFull else joinGameStatusCheck u g prof) ≠
        JoinResult.enterAsPlayer1
      by_cases hvu : v ≠ u
      · rw [if_pos hvu]
        simp
      · rw [if_neg hvu]
        exact hsc

/-- Witness for C10: player B, already bound on the ready game, is turned
away by the status guard rather than the game-full guard. -/
theorem joinGame_rejoin_rejected_after_ready_witness :
    sampleReadyGame.player2Id = some "B" ∧ "B" ≠ sampleReadyGame.player1Id ∧
    sampleReadyGame.status = Status.ready ∧
    joinGame "B" (some sampleReadyGame) (some 300) = JoinResult.notWaiting :=
  ⟨rfl, by decide, rfl,
   (joinGame_rejoin_rejected_after_ready sampleReadyGame "B" (some 300)).1
     rfl (by decide) rfl⟩

/-- C2 counterexample: score writes are read-then-write of a snapshot, not
atomic deltas.  Two correct submissions by player B evaluated against the
same cached snapshot (scores 5 to 3) each write the absolute value 4, so
their sequential commit leaves `player2Score = 4`: one increment is lost,
whereas the storage-side atomic increments demanded by the claim would
leave 5. -/
theorem scoreWrite_same_snapshot_loses_update :
    handleInputChange "7" "B" samplePlayingGame "5 * 6" 30 =
      some { currentProblem := "5 * 6", currentAnswer := 30, isP1 := false, newScore := 4 } ∧
    handleInputChange "7" "B" samplePlayingGame "8 - 2" 6 =
      some { currentProblem := "8 - 2", currentAnswer := 6, isP1 := false, newScore := 4 } ∧
    (applyScoreUpdate (applyScoreUpdate samplePlayingGame
        { currentProblem := "5 * 6", currentAnswer := 30, isP1 := false, newScore := 4 })
        { currentProblem := "8 - 2", currentAnswer := 6, isP1 := false, newScore := 4 }
      ).player2Score = 4 ∧
    (atomicIncrementP2 (atomicIncrementP2 samplePlayingGame)).player2Score = 5 ∧
    (4 : Nat) ≠ 5 :=
  ⟨rfl, rfl, rfl, rfl, by decide⟩

/-- C2 as amended: each score write is an absolute value derived from the
snapshot the writer read (the cached React snapshot for a human, the
fresh `getDoc` read for the bot tick), not a storage-layer delta.  The two
participants nevertheless target disjoint fields (`player1Score` versus
`player2Score`), so one correct submission by each, both computed from the
same snapshot, survives in either commit order. -/
theorem scoreWrites_disjoint_fields_both_reflected (g : GameRecord)
    (b np1 np2 : String) (na1 na2 : Nat)
    (hplay : g.status = Status.playing) (hb : b ≠ g.player1Id) :
    handleInputChange (answerString g.currentAnswer) g.player1Id g np1 na1 =
      some { currentProblem := np1, currentAnswer := na1, isP1 := true,
             newScore := g.player1Score + 1 } ∧
    handleInputChange (answerString g.currentAnswer) b g np2 na2 =
      some { currentProblem := np2, currentAnswer := na2, isP1 := false,
             newScore := g.player2Score + 1 } ∧
    (applyScoreUpdate (applyScoreUpdate g
        { currentProblem := np1, currentAnswer := na1, isP1 := true,
          newScore := g.player1Score + 1 })
        { currentProblem := np2, currentAnswer := na2, isP1 := false,
          newScore := g.player2Score + 1 }).player1Score = g.player1Score + 1 ∧
    (applyScoreUpdate (applyScoreUpdate g
        { currentProblem := np1, currentAnswer := na1, isP1 := true,
          newScore := g.player1Score + 1 })
        { currentProblem := np2, currentAnswer := na2, isP1 := false,
          newScore := g.player2Score + 1 }).player2Score = g.player2Score + 1 ∧
    (applyScoreUpdate (applyScoreUpdate g
        { currentProblem := np2, currentAnswer := na2, isP1 := false,
          newScore := g.player2Score + 1 })
        { currentProblem := np1, currentAnswer := na1, isP1 := true,
          newScore := g.player1Score + 1 }).player1Score = g.player1Score + 1 ∧
    (applyScoreUpdate (applyScoreUpdate g
        { currentProblem := np2, currentAnswer := na2, isP1 := false,
          newScore := g.player2Score + 1 })
        { currentProblem := np1, currentAnswer := na1, isP1 := true,
          newScore := g.player1Score + 1 }).player2Score = g.player2Score + 1 ∧
    botTickWrite g = some (g.player2Score + 1) := by
  have hb1 : (g.player1Id == g.player1Id) = true := beq_self_eq_true _
  have hb2 : (b == g.player1Id) = false := beq_eq_false_iff_ne.mpr hb
  refine ⟨?_, ?_, ?_, ?_, ?_, ?_, ?_⟩ <;>
    simp [handleInputChange, applyScoreUpdate, botTickWrite, hplay, hb1, hb2]

/-- Witness for the amended C2 on the concrete playing game. -/
theorem scoreWrites_disjoint_fields_both_reflected_witness :
    samplePlayingGame.status = Status.playing ∧ "B" ≠ samplePlayingGame.player1Id ∧
    handleInputChange (answerString samplePlayingGame.currentAnswer) "A"
        samplePlayingGame "5 * 6" 30 =
      some { currentProblem := "5 * 6", currentAnswer := 30, isP1 := true,
             newScore := samplePlayingGame.player1Score + 1 } :=
  ⟨rfl, by decide,
   (scoreWrites_disjoint_fields_both_reflected samplePlayingGame "B" "5 * 6" "8 - 2"
      30 6 rfl (by decide)).1⟩

/-- The expected scores of the two sides of a pairing sum to one. -/
theorem getExpectedScore_add_swap (a b : ℝ) :
    getExpectedScore a b + getExpectedScore b a = 1 := by
  have hpos : (0 : ℝ) < (10 : ℝ) ^ ((b - a) / 400) :=
    Real.rpow_pos_of_pos (by norm_num) _
  have hsub : (a - b) / 400 = -((b - a) / 400) := by ring
  unfold getExpectedScore
  rw [hsub, Real.rpow_neg (by norm_num : (0:ℝ) ≤ 10)]
  have h2 : ((10 : ℝ) ^ ((b - a) / 400)) ≠ 0 := ne_of_gt hpos
  have h1 : (1 : ℝ) + (10 : ℝ) ^ ((b - a) / 400) ≠ 0 := by positivity
  field_simp
  ring

/-- Equal ratings give expected score one half. -/
theorem getExpectedScore_self (a : ℝ) : getExpectedScore a a = 1 / 2 := by
  unfold getExpectedScore
  rw [sub_self, zero_div, Real.rpow_zero]
  norm_num

/-- C5: for every pair of ratings, every K, and every score in
{0, 1/2, 1}, `calculateNewElo` is exactly the rounded symmetric update:
the B side written by the source, `eloB + k*((1-s) - (1 - E(a,b)))`, equals
the specified `eloB + k*((1-s) - E(b,a))`. -/
theorem calculateNewElo_formula (a b s k : ℝ)
    (hs : s = 0 ∨ s = 1 / 2 ∨ s = 1) :
    calculateNewElo a b s k =
      (round (a + k * (s - getExpectedScore a b)),
       round (b + k * ((1 - s) - getExpectedScore b a))) := by
  have h : (1 : ℝ) - getExpectedScore a b = getExpectedScore b a := by
    have hsw := getExpectedScore_add_swap a b
    linarith
  unfold calculateNewElo
  rw [h]

/-- Witness for C5 at the end-to-end scenario ratings 200 versus 1000 with
a draw score and K 32. -/
theorem calculateNewElo_formula_witness :
    ((1/2 : ℝ) = 0 ∨ (1/2 : ℝ) = 1/2 ∨ (1/2 : ℝ) = 1) ∧
    calculateNewElo 200 1000 (1/2) 32 =
      (round ((200:ℝ) + 32 * (1/2 - getExpectedScore 200 1000)),
       round ((1000:ℝ) + 32 * ((1 - 1/2) - getExpectedScore 1000 200))) :=
  ⟨Or.inr (Or.inl rfl),
   calculateNewElo_formula 200 1000 (1/2) 32 (Or.inr (Or.inl rfl))⟩

/-- Rounding is antisymmetric away from the half-integer boundary. -/
theorem round_add_round_neg {x : ℝ} (h : ∀ n : ℤ, x + 1/2 ≠ (n : ℝ)) :
    round x + round (-x) = 0 := by
  have hle : (↑⌊x + 1/2⌋ : ℝ) ≤ x + 1/2 := Int.floor_le _
  have hlt : x + 1/2 < ↑⌊x + 1/2⌋ + 1 := Int.lt_floor_add_one _
  have hne : (↑⌊x + 1/2⌋ : ℝ) ≠ x + 1/2 := fun hc => h ⌊x + 1/2⌋ hc.symm
  have hstrict : (↑⌊x + 1/2⌋ : ℝ) < x + 1/2 := lt_of_le_of_ne hle hne
  have h2 : ⌊-x + 1/2⌋ = -⌊x + 1/2⌋ := by
    rw [Int.floor_eq_iff]
    constructor
    · push_cast
      linarith
    · push_cast
      linarith
  rw [round_eq, round_eq, h2]
  omega

/-- C6 as amended: for integer ratings and any positive K, the draw update
is zero-sum provided the unrounded adjustment `k*(1/2 - E(rA,rB))` is not
exactly half an odd integer; at such a boundary the two rounded deltas can
differ, as the counterexample shows. -/
theorem calculateNewElo_draw_zero_sum (rA rB : ℤ) (k : ℝ) (hk : 0 < k)
    (h : ∀ n : ℤ, k * (1/2 - getExpectedScore rA rB) + 1/2 ≠ (n : ℝ)) :
    (calculateNewElo rA rB (1/2) k).1 - rA =
      -((calculateNewElo rA rB (1/2) k).2 - rB) := by
  have hfst : (calculateNewElo (rA : ℝ) rB (1/2) k).1
      = round ((rA : ℝ) + k * (1/2 - getExpectedScore rA rB)) := rfl
  have hsnd : (calculateNewElo (rA : ℝ) rB (1/2) k).2
      = round ((rB : ℝ) + k * ((1 - 1/2) - (1 - getExpectedScore rA rB))) := rfl
  have e1 : (rA : ℝ) + k * (1/2 - getExpectedScore rA rB)
      = k * (1/2 - getExpectedScore rA rB) + (rA : ℝ) := by ring
  have e2 : (rB : ℝ) + k * ((1 - 1/2) - (1 - getExpectedScore rA rB))
      = -(k * (1/2 - getExpectedScore rA rB)) + (rB : ℝ) := by ring
  rw [hfst, hsnd, e1, e2, round_add_int, round_add_int]
  have h0 := round_add_round_neg h
  omega

/-- Witness for the amended C6 at equal ratings 0 and K 32, where the
adjustment is zero and the side condition holds. -/
theorem calculateNewElo_draw_zero_sum_witness :
    (0 : ℝ) < 32 ∧
    (calculateNewElo ((0:ℤ) : ℝ) ((0:ℤ) : ℝ) (1/2) 32).1 - (0:ℤ) =
      -((calculateNewElo ((0:ℤ) : ℝ) ((0:ℤ) : ℝ) (1/2) 32).2 - (0:ℤ)) := by
  constructor
  · norm_num
  · apply calculateNewElo_draw_zero_sum 0 0 32 (by norm_num)
    intro n hn
    rw [getExpectedScore_self] at hn
    have h1 : (n : ℝ) = 1/2 := by linarith
    have h2 : ((2 * n : ℤ) : ℝ) = 1 := by push_cast; linarith
    have h3 : (2 * n : ℤ) = 1 := by exact_mod_cast h2
    omega

/-- C6 counterexample: at integer ratings 0 and 400 with K 11/9 the
adjustment is exactly one half, `Math.round` sends both 1/2 and 400 - 1/2
upward, and the draw deltas are +1 and 0: not zero-sum. -/
theorem calculateNewElo_draw_not_zero_sum_at_boundary :
    ¬((calculateNewElo 0 400 (1/2) (11/9)).1 - (0:ℤ) =
      -((calculateNewElo 0 400 (1/2) (11/9)).2 - (400:ℤ))) := by
  have hE : getExpectedScore 0 400 = 1/11 := by
    unfold getExpectedScore
    rw [show ((400:ℝ) - 0) / 400 = 1 by norm_num, Real.rpow_one]
    norm_num
  have h1 : (calculateNewElo 0 400 (1/2) (11/9)).1 = 1 := by
    show round ((0:ℝ) + 11/9 * (1/2 - getExpectedScore 0 400)) = 1
    rw [show (0:ℝ) + 11/9 * (1/2 - getExpectedScore 0 400) = 1/2 by rw [hE]; norm_num]
    rw [round_eq, show (1:ℝ)/2 + 1/2 = 1 by norm_num]
    exact Int.floor_one
  have h2 : (calculateNewElo 0 400 (1/2) (11/9)).2 = 400 := by
    show round ((400:ℝ) + 11/9 * ((1 - 1/2) - (1 - getExpectedScore 0 400))) = 400
    rw [show (400:ℝ) + 11/9 * ((1 - 1/2) - (1 - getExpectedScore 0 400)) = 400 - 1/2
          by rw [hE]; norm_num]
    rw [round_eq, show (400:ℝ) - 1/2 + 1/2 = 400 by norm_num]
    rw [Int.floor_eq_iff]
    constructor
    · norm_num
    · norm_num
  rw [h1, h2]
  decide

/-- The proceed condition of the trigger, spelled out. -/
theorem eloGuard_eq_true_iff (b a : GameRecord) :
    eloGuard b a = true ↔
      (b.status ≠ Status.finished ∧ a.status = Status.finished ∧
        a.eloCalculated = false) := by
  unfold eloGuard
  simp [Bool.and_assoc, and_assoc, beq_iff_eq, beq_eq_false_iff_ne]

/-- C1 as amended: the handler writes nothing unless the delivered event
payload shows a transition into finished from a non-finished prior state
with `eloCalculated` false on the new snapshot; and any delivery whose new
snapshot reflects a committed calculation (`eloCalculated` true, as in the
follow-up event the commit itself fires) is a no-op.  An exact redelivery
of the original event snapshots, however, passes the guard again: see the
counterexample. -/
theorem eloTrigger_guard_and_cascade_noop (b a : GameRecord) (s : TriggerStore) :
    (¬(b.status ≠ Status.finished ∧ a.status = Status.finished ∧
        a.eloCalculated = false) →
      calculateEloOnGameEnd b a s = none) ∧
    (∀ s', calculateEloOnGameEnd b a s = some s' →
      s'.game.eloCalculated = true ∧
      ∀ b2 s2, calculateEloOnGameEnd b2 s'.game s2 = none) := by
  constructor
  · intro h
    unfold calculateEloOnGameEnd
    rw [if_neg (by rw [eloGuard_eq_true_iff]; exact h)]
  · intro s' hs'
    unfold calculateEloOnGameEnd at hs'
    by_cases hg : eloGuard b a = true
    · rw [if_pos hg] at hs'
      have hb : s' = eloBatch a s := (Option.some.injEq _ _).mp hs'.symm
      subst hb
      constructor
      · rfl
      · intro b2 s2
        unfold calculateEloOnGameEnd
        rw [if_neg]
        rw [eloGuard_eq_true_iff]
        intro hcon
        have hca : (eloBatch a s).game.eloCalculated = true := rfl
        rw [hcon.2.2] at hca
        exact absurd hca Bool.false_ne_true
    · rw [if_neg hg] at hs'
      exact absurd hs' (by simp)

/-- A finished bot game event payload: scores 5 to 3, Elo not yet
calculated. -/
def c1before : GameRecord :=
  { samplePlayingGame with
      opponentType := "bot-1000"
      player2Id := some "BOT-1000-x"
      player2EloAtStart := 1000 }

/-- The post-finish snapshot carried by the event. -/
def c1after : GameRecord :=
  { c1before with status := Status.finished, winnerId := some "A" }

/-- Store state at event time: player 1 profile at 200, bot without a
profile, game document equal to the after snapshot. -/
def c1store : TriggerStore :=
  { p1Profile := some 200, p2Profile := none, game := c1after }

/-- Witness for the amended C1: a delivery whose payload is not a fresh
finish transition (prior state already finished) writes nothing. -/
theorem eloTrigger_guard_and_cascade_noop_witness :
    ¬(c1after.status ≠ Status.finished ∧ c1before.status = Status.finished ∧
        c1before.eloCalculated = false) ∧
    calculateEloOnGameEnd c1after c1before c1store = none :=
  ⟨by decide,
   (eloTrigger_guard_and_cascade_noop c1after c1before c1store).1 (by decide)⟩

/-- C1 counterexample: the guard reads `eloCalculated` off the delivered
event snapshot, not the current document, so redelivering the identical
finish event after the first delivery committed still passes the guard:
the second delivery performs the batch write again instead of being a
no-op. -/
theorem eloTrigger_exact_redelivery_writes_again :
    (calculateEloOnGameEnd c1before c1after c1store).isSome = true ∧
    (deliver c1before c1after c1store).game.eloCalculated = true ∧
    (calculateEloOnGameEnd c1before c1after
        (deliver c1before c1after c1store)).isSome = true := by
  have hg : eloGuard c1before c1after = true := by decide
  refine ⟨?_, ?_, ?_⟩
  · unfold calculateEloOnGameEnd
    rw [if_pos hg]
    rfl
  · unfold deliver calculateEloOnGameEnd
    rw [if_pos hg]
    rfl
  · unfold calculateEloOnGameEnd
    rw [if_pos hg]
    rfl

/-- C8: when the trigger proceeds on a bot game, the single committed
batch leaves the player 2 profile untouched (bot ratings are not written
back to any rating record), writes player 1's profile, and sets
`eloCalculated` together with both new-rating fields of the game record —
all components of the one atomic commit `eloBatch`. -/
theorem eloTrigger_bot_single_batch (b a : GameRecord) (s : TriggerStore)
    (hg : eloGuard b a = true)
    (hbot : a.opponentType = "bot-1000" ∨ a.opponentType = "bot-2000") :
    calculateEloOnGameEnd b a s = some (eloBatch a s) ∧
    (eloBatch a s).p2Profile = s.p2Profile ∧
    (eloBatch a s).p1Profile = (eloBatch a s).game.player1NewElo ∧
    ((eloBatch a s).p1Profile).isSome = true ∧
    (eloBatch a s).game.eloCalculated = true ∧
    ((eloBatch a s).game.player2NewElo).isSome = true := by
  have hnh : a.opponentType ≠ "human" := by
    rcases hbot with h | h <;> rw [h] <;> decide
  refine ⟨?_, ?_, rfl, rfl, rfl, rfl⟩
  · unfold calculateEloOnGameEnd
    rw [if_pos hg]
  · show (if a.opponentType = "human" then _ else s.p2Profile) = s.p2Profile
    rw [if_neg hnh]

/-- Witness for C8 on the concrete finished bot game. -/
theorem eloTrigger_bot_single_batch_witness :
    eloGuard c1before c1after = true ∧
    (c1after.opponentType = "bot-1000" ∨ c1after.opponentType = "bot-2000") ∧
    (calculateEloOnGameEnd c1before c1after c1store =
        some (eloBatch c1after c1store) ∧
      (eloBatch c1after c1store).p2Profile = c1store.p2Profile ∧
      (eloBatch c1after c1store).p1Profile =
        (eloBatch c1after c1store).game.player1NewElo ∧
      ((eloBatch c1after c1store).p1Profile).isSome = true ∧
      (eloBatch c1after c1store).game.eloCalculated = true ∧
      ((eloBatch c1after c1store).game.player2NewElo).isSome = true) :=
  ⟨by decide, Or.inl rfl,
   eloTrigger_bot_single_batch c1before c1after c1store (by decide) (Or.inl rfl)⟩
